import Mathlib

/-!
Shallow embedding of the `use-axios` request lifecycle controller
(`src/index.ts`, with the near-identical variant in `part_001`):
config normalization, URL resolution, the per-URL response cache,
the request state reducer, the resolve effect with its completion
handler, and the explicit trigger (`sendRequest`) scheduler.

External collaborators (the axios HTTP client, the WHATWG `URL`
constructor, `AbortController`, `setTimeout`) are modelled as
oracle parameters: the axios call outcome is an `AxiosOutcome`
argument, URL joining is a `String → String → Option String`
argument (`none` encodes a thrown resolution error), and the abort
signal is a boolean fed into the eventual outcome.
-/

set_option autoImplicit false

namespace UseAxios

/-- Stand-in for an axios response envelope; `data` represents the body. -/
structure AxiosResponse where
  data : Nat
  status : Nat
deriving DecidableEq, Repr

/-- Stand-in for a raw JS `Error` / `AxiosError` object. -/
structure JsError where
  code : Nat
deriving DecidableEq, Repr

/-- The request part of a config, after the controller-only flags
`autoExecute` / `waitUntilMount` were destructured away.
`url = none` models a missing or non-string `url` (the `isStr` check),
likewise for `baseURL`; `signal` records whether the caller supplied
their own cancellation signal; `data` stands for the remaining request
fields (method, headers, body) that only matter for deep equality. -/
structure AxiosRequestConfig where
  url : Option String := none
  baseURL : Option String := none
  signal : Bool := false
  data : Nat := 0
deriving DecidableEq, Repr

/-- A config as passed to `useAxios` / `sendRequest`, before validation:
the two controller flags may be absent or nullish (`none`). -/
structure UseAxiosConfig where
  autoExecute : Option Bool := none
  waitUntilMount : Option Bool := none
  request : AxiosRequestConfig := {}
deriving DecidableEq, Repr

/-- A `useAxios` / `sendRequest` config argument as a JS value: it can be
absent (`undefined`), `null`, some non-object primitive, or an object. -/
inductive ConfigInput where
  | absent
  | nullv
  | nonObject
  | obj (c : UseAxiosConfig)
deriving DecidableEq, Repr

/-- True only on the `obj` constructor, as `config instanceof Object`. -/
def ConfigInput.isObj : ConfigInput → Bool
  | .obj _ => true
  | _ => false

/-- A config after `validateConfig`: both flags are definite booleans. -/
structure ValidatedConfig where
  autoExecute : Bool
  waitUntilMount : Bool
  request : AxiosRequestConfig := {}
deriving DecidableEq, Repr

/-- The `defaultConfig` object of `validateConfig` in `src/index.ts`. -/
def defaultConfig : ValidatedConfig :=
  { autoExecute := true, waitUntilMount := false }

/-- `validateConfig` from `src/index.ts` (lines 63–75).  Non-objects map
to `defaultConfig`; otherwise the input is copied with each flag
defaulted via `??`.  The source reads
`waitUntilMount: waitUntilMount ?? defaultConfig.autoExecute`
(line 73), so the `waitUntilMount` fallback is `defaultConfig.autoExecute`. -/
def validateConfig : ConfigInput → ValidatedConfig
  | .obj c =>
      { request := c.request
        autoExecute := c.autoExecute.getD defaultConfig.autoExecute
        waitUntilMount := c.waitUntilMount.getD defaultConfig.autoExecute }
  | _ => defaultConfig

/-- `validateConfig` from the `part_001` variant (lines 63–81): here each
flag falls back to its own default when `undefined` and is coerced with
`!!` otherwise.  (`none` models `undefined`; a JS `null` flag is coerced
by `!!` to `false` in this variant.) -/
def validateConfigVariant : ConfigInput → ValidatedConfig
  | .obj c =>
      { request := c.request
        autoExecute := c.autoExecute.getD defaultConfig.autoExecute
        waitUntilMount := c.waitUntilMount.getD defaultConfig.waitUntilMount }
  | _ => defaultConfig

/-- Request state: `response`, `error`, `loading` (`null` as `none`). -/
structure ReqState where
  response : Option AxiosResponse := none
  error : Option JsError := none
  loading : Bool := false
deriving DecidableEq, Repr

/-- The initial reducer state of both variants. -/
def initialState : ReqState := {}

/-- Reducer actions, as the `Action` union type. -/
inductive Action where
  | loading
  | response (payload : AxiosResponse)
  | error (payload : JsError)
deriving DecidableEq, Repr

/-- The `useReducer` transition function of `src/index.ts` (lines 134–154):
`loading` keeps previous data, `response` replaces the whole state, and
`error` spreads the previous state, so a previous `response` survives. -/
def reducer (prev : ReqState) : Action → ReqState
  | .loading => { prev with loading := true }
  | .response payload => { response := some payload, loading := false, error := none }
  | .error payload => { prev with loading := false, error := some payload }

/-- `stateReducer` of the `part_001` variant (lines 144–159): every action
rebuilds the state from `initialState`, so stale data is cleared. -/
def stateReducer (_prev : ReqState) : Action → ReqState
  | .loading => { initialState with loading := true }
  | .response payload => { initialState with response := some payload }
  | .error payload => { initialState with error := some payload }

theorem stateReducer_ignores_prev (p q : ReqState) (a : Action) :
    stateReducer p a = stateReducer q a := by
  cases a <;> rfl

/-- Case-insensitive absolute-http(s) test, the regex
`/^(http:\/\/|https:\/\/)/i` of `getRequestURL`. -/
def isAbsoluteHttp (url : String) : Bool :=
  url.toLower.startsWith "http://" || url.toLower.startsWith "https://"

/-- `getRequestURL` from `src/index.ts` (lines 76–89).  The WHATWG
`new URL(url, baseURL).toString()` call is the oracle `urlJoin`;
`urlJoin url base = none` models the constructor throwing, in which
case the error message is logged and `""` returned. -/
def getRequestURL (urlJoin : String → String → Option String)
    (config : Option AxiosRequestConfig) : String :=
  match config with
  | none => ""
  | some c =>
    match c.url with
    | none => ""
    | some url =>
      if c.baseURL.isNone || isAbsoluteHttp url then url
      else
        match c.baseURL with
        | some base => (urlJoin url base).getD ""
        | none => url

/-- One cache slot: the stripped config a response was fetched with,
and the response itself. -/
structure CacheEntry where
  config : AxiosRequestConfig
  response : AxiosResponse
deriving DecidableEq, Repr

/-- The per-instance `cache.current` object (`Cache<T, D>` in the
source): resolved URL → entry. -/
abbrev Cache : Type := List (String × CacheEntry)

/-- Property lookup `cache.current[url]` (`undefined` as `none`). -/
def cacheGet (m : Cache) (url : String) : Option CacheEntry :=
  match m with
  | [] => none
  | (k, e) :: rest => if k = url then some e else cacheGet rest url

/-- Property deletion `delete cache.current[url]`. -/
def cacheDel (m : Cache) (url : String) : Cache :=
  List.filter (fun p => p.1 != url) m

/-- Property assignment `cache.current[url] = entry`. -/
def cacheSet (m : Cache) (url : String) (entry : CacheEntry) : Cache :=
  (url, entry) :: cacheDel m url

theorem cacheGet_cacheDel_self (m : Cache) (url : String) :
    cacheGet (cacheDel m url) url = none := by
  induction m with
  | nil => rfl
  | cons p rest ih =>
    by_cases h : p.1 = url
    · simpa [cacheDel, List.filter_cons, h] using ih
    · simpa [cacheDel, List.filter_cons, h, cacheGet, bne_iff_ne] using ih

/-- Outcome of one axios call, as observed by `makeRequest`'s
`try`/`catch`: a response envelope, a rejection that satisfies
`axios.isCancel`, or any other rejection. -/
inductive AxiosOutcome where
  | success (res : AxiosResponse)
  | canceled (err : JsError)
  | failure (err : JsError)
deriving DecidableEq, Repr

/-- `makeRequest` from `src/index.ts` (lines 90–109): with no config the
result is `null`; otherwise axios is called (with the controller's
signal merged in when a controller was created) and the settled outcome
becomes `null` for a cancellation, a `response` action on success, and
an `error` action carrying the raw rejection value otherwise.
`controllerCreated` records whether an `AbortController` was passed;
the axios outcome argument already reflects any abort of it. -/
def makeRequest (config : Option AxiosRequestConfig) (controllerCreated : Bool)
    (outcome : AxiosOutcome) : Option Action :=
  match config with
  | none => none
  | some _ =>
    match outcome with
    | .success res => some (.response res)
    | .canceled _ => none
    | .failure err =>
      let _ := controllerCreated
      some (.error err)

/-- The `.then` completion callback of the resolve effect
(`src/index.ts` lines 213–222): a `null` action is dropped silently;
a `response` action is first written to the cache under the (non-empty)
current URL together with the current stripped config; every non-null
action is dispatched. -/
def completionHandler (currentURL : String) (requestConfig : AxiosRequestConfig)
    (cache : Cache) (st : ReqState) :
    Option Action → Cache × ReqState
  | none => (cache, st)
  | some a =>
    let cache' :=
      match a with
      | .response res =>
        if currentURL != "" then
          cacheSet cache currentURL { config := requestConfig, response := res }
        else cache
      | _ => cache
    (cache', reducer st a)

/-- The inputs of one run of the resolve effect that are fixed during
the run: the flags and stripped config of `currentConfig`, the memoised
`currentURL`, and `lastRequestTime`. -/
structure ResolveEnv where
  waitUntilMount : Bool
  autoExecute : Bool
  requestConfig : AxiosRequestConfig
  currentURL : String
  lastRequestTime : Nat
deriving DecidableEq, Repr

/-- What the synchronous part of the resolve effect decides to do. -/
inductive StartAction where
  | mountTick
  | skip
  | cacheHit (res : AxiosResponse)
  | request (controllerCreated : Bool)
deriving DecidableEq, Repr

/-- The synchronous part of the resolve effect (`src/index.ts` lines
197–212): the `waitUntilMount` gate, the empty-URL / `autoExecute`
gate, the cache lookup with the deep-equality check on the stored
config, and — on a miss — the decision to issue a request, creating an
`AbortController` only when the config has no own `signal`. -/
def resolveStart (env : ResolveEnv) (didMount : Bool) (cache : Cache) :
    StartAction :=
  if env.waitUntilMount && !didMount then .mountTick
  else if env.currentURL == "" || (!env.autoExecute && env.lastRequestTime == 0) then
    .skip
  else
    match cacheGet cache env.currentURL with
    | some cached =>
      if env.requestConfig = cached.config then .cacheHit cached.response
      else .request (!env.requestConfig.signal)
    | none => .request (!env.requestConfig.signal)

/-- The observable result of one resolve cycle. -/
structure CycleResult where
  didMount : Bool
  cache : Cache
  state : ReqState
  httpCalls : Nat
deriving DecidableEq, Repr

/-- One complete resolve cycle of `src/index.ts`: the synchronous start,
and — when a request was issued — the `loading` dispatch, the axios
call (counted in `httpCalls`), and the completion handler.
`abortSignaled` tells whether the effect's cleanup ran (a later cycle
or teardown) before the call settled; aborting turns the outcome into a
cancellation only when the effect created its own controller. -/
def resolveCycle (env : ResolveEnv) (didMount : Bool) (cache : Cache)
    (st : ReqState) (outcome : AxiosOutcome) (abortSignaled : Bool) :
    CycleResult :=
  match resolveStart env didMount cache with
  | .mountTick => { didMount := true, cache := cache, state := st, httpCalls := 0 }
  | .skip => { didMount := didMount, cache := cache, state := st, httpCalls := 0 }
  | .cacheHit res =>
    { didMount := didMount, cache := cache
      state := reducer st (.response res), httpCalls := 0 }
  | .request created =>
    let effectiveOutcome := if created && abortSignaled then .canceled ⟨0⟩ else outcome
    let st1 := reducer st .loading
    let done := completionHandler env.currentURL env.requestConfig cache st1
      (makeRequest (some env.requestConfig) created effectiveOutcome)
    { didMount := didMount, cache := done.1, state := done.2, httpCalls := 1 }

/-- Two overlapping resolve cycles on one controller instance: cycle A
takes the request path; before A's call settles, cycle B's effect run
begins, which first runs A's effect cleanup (`controller?.abort()` —
it can only fire when A's effect created an `AbortController`, i.e.
when A's config had no own `signal`); B also takes the request path and
its call settles first; finally A's call settles and A's completion
handler (closing over A's URL and config) runs last. -/
def overlapScenario (cfgA : AxiosRequestConfig) (urlA : String)
    (cfgB : AxiosRequestConfig) (urlB : String)
    (outA outB : AxiosOutcome) (cache0 : Cache) (st0 : ReqState) :
    Cache × ReqState :=
  let createdA := !cfgA.signal
  let createdB := !cfgB.signal
  let st1 := reducer st0 .loading
  let st2 := reducer st1 .loading
  let afterB := completionHandler urlB cfgB cache0 st2
    (makeRequest (some cfgB) createdB outB)
  let effA : AxiosOutcome := if createdA then .canceled ⟨0⟩ else outA
  completionHandler urlA cfgA afterB.1 afterB.2
    (makeRequest (some cfgA) createdA effA)

/-- Local state touched by `triggerRequest` and its `onTimeout`. -/
structure TrigState where
  cache : Cache
  currentConfig : ValidatedConfig
  lastRequestTime : Int
  requestTimeout : Nat
deriving DecidableEq, Repr

/-- The `onTimeout` apply action inside `triggerRequest`
(`src/index.ts` lines 165–178): delete the cache entry for the current
URL when it is non-empty; when the supplied config argument is an
object, install it after validation, re-imposing the current
`waitUntilMount` / `autoExecute` flags; record the current time as the
last trigger time; clear the pending-trigger marker. -/
def onTimeout (currentURL : String) (axiosConfig : ConfigInput)
    (waitUntilMount autoExecute : Bool) (now : Int) (s : TrigState) :
    TrigState :=
  { cache := if currentURL != "" then cacheDel s.cache currentURL else s.cache
    currentConfig :=
      match axiosConfig with
      | .obj c =>
        validateConfig (.obj { c with
          waitUntilMount := some waitUntilMount
          autoExecute := some autoExecute })
      | _ => s.currentConfig
    lastRequestTime := now
    requestTimeout := 0 }

/-- What one `triggerRequest` call did: the resulting local state,
whether the apply action ran immediately, and the delay of the armed
timer when one was scheduled instead. -/
structure TriggerResult where
  state : TrigState
  applied : Bool
  scheduledDelay : Option Int
deriving DecidableEq, Repr

/-- `triggerRequest` from `src/index.ts` (lines 162–195): a pending
timer makes the call a no-op; an absent or non-positive
`requestLimit` (the `!isNum(requestLimit) || requestLimit <= 0` check,
with `none` for a non-number) applies `onTimeout` immediately;
otherwise a timer with the nonzero id `timerId` is armed for
`now - (now - requestLimit)` milliseconds and its id stored as the
pending marker. -/
def triggerRequest (currentURL : String) (waitUntilMount autoExecute : Bool)
    (axiosConfig : ConfigInput) (requestLimit : Option Int) (now : Int)
    (timerId : Nat) (s : TrigState) : TriggerResult :=
  if s.requestTimeout != 0 then
    { state := s, applied := false, scheduledDelay := none }
  else
    match requestLimit with
    | none =>
      { state := onTimeout currentURL axiosConfig waitUntilMount autoExecute now s
        applied := true, scheduledDelay := none }
    | some limit =>
      if limit ≤ 0 then
        { state := onTimeout currentURL axiosConfig waitUntilMount autoExecute now s
          applied := true, scheduledDelay := none }
      else
        { state := { s with requestTimeout := timerId }
          applied := false
          scheduledDelay := some (now - (now - limit)) }

/-- The URL resolver contract as the spec words it (§4.2): no string
`url` yields `""`; an absolute-http(s) `url` is returned verbatim; with
no string `baseURL` the `url` is returned unchanged; otherwise the join
of `url` against `baseURL` is returned, `""` if the join fails. -/
def resolveSpec (urlJoin : String → String → Option String)
    (config : Option AxiosRequestConfig) : String :=
  match config with
  | none => ""
  | some c =>
    match c.url with
    | none => ""
    | some url =>
      if isAbsoluteHttp url then url
      else
        match c.baseURL with
        | none => url
        | some base => (urlJoin url base).getD ""

end UseAxios

namespace UseAxios

/-- C2 counterexample: in the `src/index.ts` reducer, dispatching
RESPONSE, then LOADING, then ERROR leaves the previous response in
place next to the new error: the resulting state has `response ≠ null`
and `error ≠ null` at once, so ERROR does not set `response = null` and
the claimed one-of-response-or-error invariant fails. -/
theorem error_keeps_response_cex :
    (reducer (reducer (reducer initialState (.response ⟨1, 200⟩)) .loading)
        (.error ⟨7⟩)) =
      { response := some ⟨1, 200⟩, error := some ⟨7⟩, loading := false } := by
  rfl

/-- C2 amended: ERROR(payload) sets `error = payload` and `loading = false`
in both variants, but only the `part_001` variant resets `response` to
null; the `src/index.ts` reducer retains the previous `response`, so both
fields can be non-null after an error follows a response. -/
theorem error_transition_by_variant (st : ReqState) (payload : JsError) :
    reducer st (.error payload) =
      { response := st.response, error := some payload, loading := false } ∧
    stateReducer st (.error payload) =
      { response := none, error := some payload, loading := false } := by
  exact ⟨rfl, rfl⟩

/-- C3: at the failing input `{url: "http://x"}` (both flags absent),
`validateConfig` of `src/index.ts` yields `waitUntilMount = true`,
while its own `defaultConfig` (and the doc comment on the
`waitUntilMount` field, and the `part_001` variant) say the default is
`false`: line 73 falls back to `defaultConfig.autoExecute` instead of
`defaultConfig.waitUntilMount`. -/
theorem validateConfig_waitUntilMount_bug :
    (validateConfig (.obj { request := { url := some "http://x" } })).waitUntilMount
        = true ∧
      defaultConfig.waitUntilMount = false ∧
      (validateConfigVariant
          (.obj { request := { url := some "http://x" } })).waitUntilMount = false := by
  exact ⟨rfl, rfl, rfl⟩

/-- C6: the resolver of `src/index.ts` agrees with the spec's table for
every join oracle and every input: `""` for a missing/non-string `url`,
the `url` verbatim when it carries a case-insensitive http(s) scheme or
when `baseURL` is not a string, the join of `url` against `baseURL`
otherwise, and `""` when the join fails (throws). -/
theorem getRequestURL_matches_resolveSpec
    (urlJoin : String → String → Option String)
    (config : Option AxiosRequestConfig) :
    getRequestURL urlJoin config = resolveSpec urlJoin config := by
  match config with
  | none => rfl
  | some c =>
    match hu : c.url with
    | none => simp [getRequestURL, resolveSpec, hu]
    | some url =>
      match hb : c.baseURL with
      | none => simp [getRequestURL, resolveSpec, hu, hb]
      | some base =>
        by_cases habs : isAbsoluteHttp url <;>
          simp [getRequestURL, resolveSpec, hu, hb, habs]

/-- C1: when the resolve effect's gates pass and the cache holds an
entry for the current URL whose stored config deep-equals the current
stripped config, the cycle dispatches RESPONSE with exactly the stored
response, issues zero axios calls, and leaves the cache untouched. -/
theorem cache_hit_replays_without_request (env : ResolveEnv) (didMount : Bool)
    (cache : Cache) (st : ReqState) (outcome : AxiosOutcome)
    (abortSignaled : Bool) (C : AxiosRequestConfig) (R : AxiosResponse)
    (hmount : (env.waitUntilMount && !didMount) = false)
    (hgate : (env.currentURL == "" ||
      (!env.autoExecute && env.lastRequestTime == 0)) = false)
    (hhit : cacheGet cache env.currentURL = some { config := C, response := R })
    (hcfg : env.requestConfig = C) :
    resolveStart env didMount cache = .cacheHit R ∧
    resolveCycle env didMount cache st outcome abortSignaled =
      { didMount := didMount, cache := cache
        state := { response := some R, error := none, loading := false }
        httpCalls := 0 } := by
  have hstart : resolveStart env didMount cache = .cacheHit R := by
    simp [resolveStart, hmount, hgate, hhit, hcfg]
  exact ⟨hstart, by simp [resolveCycle, hstart, reducer]⟩

theorem cache_hit_replays_without_request_witness :
    resolveCycle
        { waitUntilMount := false, autoExecute := true
          requestConfig := { url := some "http://x/y" }
          currentURL := "http://x/y", lastRequestTime := 0 }
        true
        [("http://x/y",
          { config := { url := some "http://x/y" }, response := ⟨5, 200⟩ })]
        initialState (.failure ⟨9⟩) false =
      { didMount := true
        cache := [("http://x/y",
          { config := { url := some "http://x/y" }, response := ⟨5, 200⟩ })]
        state := { response := some ⟨5, 200⟩, error := none, loading := false }
        httpCalls := 0 } :=
  (cache_hit_replays_without_request _ true _ initialState (.failure ⟨9⟩) false
    { url := some "http://x/y" } ⟨5, 200⟩
    (by decide) (by decide) (by decide) rfl).2

/-- C4: a cancelled request settles silently: `makeRequest` maps a
cancellation outcome to null, so the completion handler dispatches no
RESPONSE and no ERROR and returns the cache and state unchanged, no
matter how late the underlying call settles. -/
theorem canceled_completion_is_silent (url : String)
    (cfg : AxiosRequestConfig) (created : Bool) (err : JsError)
    (cache : Cache) (st : ReqState) :
    makeRequest (some cfg) created (.canceled err) = none ∧
    completionHandler url cfg cache st
        (makeRequest (some cfg) created (.canceled err)) = (cache, st) :=
  ⟨rfl, rfl⟩

/-- C9: a non-cancellation failure is dispatched as ERROR carrying the
raw error object and writes nothing to the cache; and neither a
cancellation nor a success at an empty resolved URL writes a cache
entry, so only non-cancelled successes with a non-empty URL do. -/
theorem failure_dispatches_raw_error_no_cache (url : String)
    (cfg : AxiosRequestConfig) (created : Bool) (err : JsError)
    (res : AxiosResponse) (cache : Cache) (st : ReqState) :
    completionHandler url cfg cache st
        (makeRequest (some cfg) created (.failure err)) =
      (cache, reducer st (.error err)) ∧
    (reducer st (.error err)).error = some err ∧
    (completionHandler "" cfg cache st
        (makeRequest (some cfg) created (.success res))).1 = cache ∧
    completionHandler url cfg cache st
        (makeRequest (some cfg) created (.canceled err)) = (cache, st) :=
  ⟨rfl, rfl, rfl, rfl⟩

/-- C5 counterexample: when cycle A's config supplies its own
cancellation signal, the effect creates no `AbortController`, so
starting cycle B does not cancel A at all, and A's later successful
completion overwrites the state B had set: with A fetching
`http://a/` (payload 1) and B `http://b/` (payload 2), the final
response is A's payload, not B's. -/
theorem own_signal_stale_overwrite_cex :
    (completionHandler "http://b/" { url := some "http://b/" } []
          (reducer (reducer initialState .loading) .loading)
          (makeRequest (some { url := some "http://b/" }) true
            (.success ⟨2, 200⟩))).2.response = some ⟨2, 200⟩ ∧
      (overlapScenario { url := some "http://a/", signal := true } "http://a/"
          { url := some "http://b/" } "http://b/"
          (.success ⟨1, 200⟩) (.success ⟨2, 200⟩) [] initialState).2.response =
        some ⟨1, 200⟩ :=
  ⟨rfl, rfl⟩

/-- C5 amended: starting cycle B while A's request is in flight aborts
A only when A's config did not supply its own cancellation signal (only
then does the effect create an `AbortController` for the cleanup to
abort); in that case A's aborted completion is silent and the scenario
ends exactly in the state B's completion produced.  With an
own-signal config A is never cancelled and its completion can overwrite
B's state and cache. -/
theorem no_stale_overwrite_without_own_signal (cfgA : AxiosRequestConfig)
    (urlA : String) (cfgB : AxiosRequestConfig) (urlB : String)
    (outA outB : AxiosOutcome) (cache0 : Cache) (st0 : ReqState)
    (h : cfgA.signal = false) :
    overlapScenario cfgA urlA cfgB urlB outA outB cache0 st0 =
      completionHandler urlB cfgB cache0
        (reducer (reducer st0 .loading) .loading)
        (makeRequest (some cfgB) (!cfgB.signal) outB) := by
  simp [overlapScenario, h, makeRequest, completionHandler]

theorem no_stale_overwrite_without_own_signal_witness :
    overlapScenario { url := some "http://a/" } "http://a/"
        { url := some "http://b/" } "http://b/"
        (.success ⟨1, 200⟩) (.success ⟨2, 200⟩) [] initialState =
      completionHandler "http://b/" { url := some "http://b/" } []
        (reducer (reducer initialState .loading) .loading)
        (makeRequest (some { url := some "http://b/" }) true
          (.success ⟨2, 200⟩)) :=
  no_stale_overwrite_without_own_signal { url := some "http://a/" } "http://a/"
    { url := some "http://b/" } "http://b/"
    (.success ⟨1, 200⟩) (.success ⟨2, 200⟩) [] initialState rfl

/-- C7: the apply action (`onTimeout`) removes the cache entry for the
currently resolved URL — whatever config argument the trigger carried,
so also when it resolves to the same URL again — while a call that hits
the pending-trigger marker is a no-op: nothing is applied, nothing is
scheduled, and the local state (the cache included) is untouched. -/
theorem trigger_invalidates_on_apply_only (currentURL : String)
    (wum au : Bool) (axiosConfig : ConfigInput) (requestLimit : Option Int)
    (now : Int) (timerId : Nat) (s : TrigState)
    (hurl : currentURL ≠ "") :
    cacheGet (onTimeout currentURL axiosConfig wum au now s).cache currentURL
        = none ∧
    (s.requestTimeout ≠ 0 →
      triggerRequest currentURL wum au axiosConfig requestLimit now timerId s =
        { state := s, applied := false, scheduledDelay := none }) := by
  constructor
  · simp [onTimeout, hurl, cacheGet_cacheDel_self]
  · intro hp
    simp [triggerRequest, hp]

theorem trigger_invalidates_on_apply_only_witness :
    cacheGet
        (onTimeout "http://x/" .absent false true 5
          { cache := [("http://x/", { config := {}, response := ⟨1, 200⟩ })]
            currentConfig := defaultConfig
            lastRequestTime := 0, requestTimeout := 1 }).cache "http://x/"
      = none :=
  (trigger_invalidates_on_apply_only "http://x/" false true .absent none 5 2
    { cache := [("http://x/", { config := {}, response := ⟨1, 200⟩ })]
      currentConfig := defaultConfig
      lastRequestTime := 0, requestTimeout := 1 }
    (by decide)).1

/-- C8: with no trigger pending and a positive limit L, the timer is
armed with the source's delay expression `now - (now - L)`, which
equals exactly L; and any call made while the pending marker is set is
a no-op: no apply runs, no timer is armed, the state is unchanged. -/
theorem throttle_delay_equals_limit (currentURL : String) (wum au : Bool)
    (axiosConfig : ConfigInput) (limit now : Int) (timerId : Nat)
    (s : TrigState) (hlim : 0 < limit) (h0 : s.requestTimeout = 0) :
    triggerRequest currentURL wum au axiosConfig (some limit) now timerId s =
      { state := { s with requestTimeout := timerId }, applied := false
        scheduledDelay := some (now - (now - limit)) } ∧
    now - (now - limit) = limit ∧
    ∀ (limit2 : Option Int) (now2 : Int) (tid2 : Nat) (cfg2 : ConfigInput),
      timerId ≠ 0 →
      triggerRequest currentURL wum au cfg2 limit2 now2 tid2
          { s with requestTimeout := timerId } =
        { state := { s with requestTimeout := timerId }, applied := false
          scheduledDelay := none } := by
  refine ⟨?_, by omega, ?_⟩
  · simp [triggerRequest, h0, not_le.mpr hlim]
  · intro limit2 now2 tid2 cfg2 htid
    simp [triggerRequest, htid]

theorem throttle_delay_equals_limit_witness :
    triggerRequest "http://x/" false true .absent (some 300) 1000 3
        { cache := [], currentConfig := defaultConfig
          lastRequestTime := 0, requestTimeout := 0 } =
      { state := { cache := [], currentConfig := defaultConfig
                   lastRequestTime := 0, requestTimeout := 3 }
        applied := false
        scheduledDelay := some (1000 - (1000 - 300)) } :=
  (throttle_delay_equals_limit "http://x/" false true .absent 300 1000 3
    { cache := [], currentConfig := defaultConfig
      lastRequestTime := 0, requestTimeout := 0 }
    (by decide) rfl).1

/-- C10: a `sendRequest` call with no pending trigger and a config
argument that is absent, null, or not an object still runs the apply:
the cache entry for the current (non-empty) resolved URL is deleted and
the last trigger time becomes `now`, while the active config object is
left exactly as it was. -/
theorem trigger_nonobject_config_applies (currentURL : String)
    (wum au : Bool) (axiosConfig : ConfigInput) (now : Int) (timerId : Nat)
    (s : TrigState) (h0 : s.requestTimeout = 0)
    (hobj : axiosConfig.isObj = false) (hurl : currentURL ≠ "") :
    (triggerRequest currentURL wum au axiosConfig none now timerId s).applied
        = true ∧
    (triggerRequest currentURL wum au axiosConfig none now timerId
        s).state.currentConfig = s.currentConfig ∧
    (triggerRequest currentURL wum au axiosConfig none now timerId
        s).state.lastRequestTime = now ∧
    cacheGet (triggerRequest currentURL wum au axiosConfig none now timerId
        s).state.cache currentURL = none := by
  cases axiosConfig with
  | obj c => simp [ConfigInput.isObj] at hobj
  | absent =>
    simp [triggerRequest, h0, onTimeout, hurl, cacheGet_cacheDel_self]
  | nullv =>
    simp [triggerRequest, h0, onTimeout, hurl, cacheGet_cacheDel_self]
  | nonObject =>
    simp [triggerRequest, h0, onTimeout, hurl, cacheGet_cacheDel_self]

theorem trigger_nonobject_config_applies_witness :
    (triggerRequest "http://x/" false true .nullv none 7 2
        { cache := [("http://x/", { config := {}, response := ⟨1, 200⟩ })]
          currentConfig := defaultConfig
          lastRequestTime := 0, requestTimeout := 0 }).state.currentConfig
      = defaultConfig :=
  (trigger_nonobject_config_applies "http://x/" false true .nullv 7 2
    { cache := [("http://x/", { config := {}, response := ⟨1, 200⟩ })]
      currentConfig := defaultConfig
      lastRequestTime := 0, requestTimeout := 0 }
    rfl rfl (by decide)).2.1

end UseAxios
